import Mathlib

/-!
Shallow embedding of `src/prometheus_render.py` (prometheus-renderer).

The program is a single linear pipeline: parse a range string, compute
query parameters, issue a primary range query (fatal on failure), draw
the series, optionally issue a marker ("vlines") query whose failures
degrade to a warning, pick an axis tick format, and write the image.

Modelling conventions:
- `parse_range s = .error msg` models "print `msg` to stderr, `sys.exit(1)`".
- JSON responses are modelled post-decoding by `PromBody`; `FetchResult`
  distinguishes a transport error (`requests.RequestException`, which
  includes timeouts and non-2xx raised by `raise_for_status`), a body
  that fails JSON decoding (`ValueError`), and a decoded body.
- Timestamps and sample values are modelled as integers; the claims under
  study concern structure and ordering, not float arithmetic.
- `RunOutcome.fatal msg` models "print `msg` to stderr, `sys.exit(1)`";
  `RunOutcome.crash` models an uncaught Python exception (non-zero exit);
  `RunOutcome.done chart warnings` models a completed run, where
  `warnings` lists the marker-related warnings printed to stderr.
- Style resolution and the actual raster drawing are outside the model;
  `Chart` records the render-relevant decisions the claims talk about
  (series labels, marker timestamps, tick format, legend presence).
-/

namespace PrometheusRender

/-- The unit multiplier table of `parse_range`
(`multipliers = {"s": 1, "m": 60, "h": 3600, "d": 86400, "w": 604800}`),
as a lookup function; `none` for a character outside the regex class. -/
def unitMultiplier (c : Char) : Option Nat :=
  if c = 's' then some 1
  else if c = 'm' then some 60
  else if c = 'h' then some 3600
  else if c = 'd' then some 86400
  else if c = 'w' then some 604800
  else none

/-- Decimal value of a digit string, as Python `int(...)` computes it
for an ASCII digit string. -/
def digitsVal (cs : List Char) : Nat :=
  cs.foldl (fun a c => a * 10 + (c.toNat - 48)) 0

/-- The diagnostic `parse_range` prints before exiting. -/
def invalidRangeMsg (s : String) : String :=
  s!"Invalid range format: {s} (expected e.g. 1h, 24h, 7d)"

/-- `parse_range` from the source: `re.fullmatch(r"(\d+)([smhdw])", range_str)`
then `value * multipliers[unit]`. A full match of the regex is exactly: the
last character is one of `smhdw` and the (nonempty) rest are digits.
`.error msg` models printing `msg` to stderr and exiting with status 1. -/
def parse_range (s : String) : Except String Nat :=
  match s.data.getLast? with
  | none => .error (invalidRangeMsg s)
  | some u =>
    let ds := s.data.dropLast
    match unitMultiplier u with
    | none => .error (invalidRangeMsg s)
    | some mult =>
      if !ds.isEmpty && ds.all Char.isDigit then .ok (digitsVal ds * mult)
      else .error (invalidRangeMsg s)

/-- `metric_label`'s reserved keys: `exclude = {"__name__", "job", "instance"}`. -/
def excludeKeys : List String := ["__name__", "job", "instance"]

/-- Strict lexicographic comparison of character lists by code point:
Python's `<` on strings. Structural, so it evaluates by kernel reduction. -/
def charListLt : List Char → List Char → Bool
  | _, [] => false
  | [], _ :: _ => true
  | a :: as, b :: bs =>
    if a.toNat < b.toNat then true
    else if b.toNat < a.toNat then false
    else charListLt as bs

/-- Non-strict lexicographic comparison of character lists by code point:
Python's `<=` on strings. -/
def charListLe : List Char → List Char → Bool
  | [], _ => true
  | _ :: _, [] => false
  | a :: as, b :: bs =>
    if a.toNat < b.toNat then true
    else if b.toNat < a.toNat then false
    else charListLe as bs

/-- Python's `<` on strings. -/
def strLt (a b : String) : Bool := charListLt a.data b.data

/-- Python's `<=` on strings. -/
def strLe (a b : String) : Bool := charListLe a.data b.data

/-- Python's ordering on `(key, value)` string pairs, as used by
`sorted(metric.items())`: lexicographic on the pair. -/
def pairLe (a b : String × String) : Prop :=
  strLt a.1 b.1 = true ∨ (a.1 = b.1 ∧ strLe a.2 b.2 = true)

instance : DecidableRel pairLe := fun a b => by
  unfold pairLe; infer_instance

/-- `sorted(metric.items())`: the items of the label set sorted by
Python's pair order. The label set is modelled as an association list
(a Python dict has distinct keys, recorded as a hypothesis where needed). -/
def sortedItems (m : List (String × String)) : List (String × String) :=
  m.insertionSort pairLe

/-- `metric_label` from the source: sort the items, drop reserved keys,
render `k=v` joined by `", "`; if nothing remains fall back to
`metric.get("__name__", "value")`. -/
def metric_label (m : List (String × String)) : String :=
  let parts := ((sortedItems m).filter (fun p => !excludeKeys.contains p.1)).map
    (fun p => p.1 ++ "=" ++ p.2)
  if !parts.isEmpty then String.intercalate ", " parts
  else ((m.lookup "__name__").getD "value")

/-- One result series of a decoded `query_range` response:
`{metric: {...}, values: [[ts, v], ...]}`. -/
structure SeriesData where
  metric : List (String × String)
  values : List (Int × Int)
deriving DecidableEq

/-- The decoded JSON envelope `{status, error?, data: {result: [...]}}`.
`dataResult = none` models a body in which `data` or `data["result"]`
is missing (a `KeyError` on access). -/
structure PromBody where
  status : Option String
  error : Option String
  dataResult : Option (List SeriesData)
deriving DecidableEq

/-- Outcome of one HTTP fetch of `<base>/api/v1/query_range`. -/
inductive FetchResult where
  | transportError (msg : String)
  | badJson (msg : String)
  | ok (body : PromBody)
deriving DecidableEq

/-- The render-relevant decisions of a completed run. -/
structure Chart where
  seriesLabels : List String
  markers : List (Int × String)
  dateFmt : String
  legend : Bool
deriving DecidableEq

/-- Outcome of `main` after argument parsing. -/
inductive RunOutcome where
  | fatal (msg : String)
  | crash (msg : String)
  | done (chart : Chart) (warnings : List String)
deriving DecidableEq

/-- Process exit status of each outcome. -/
def exitCode : RunOutcome → Nat
  | .fatal _ => 1
  | .crash _ => 1
  | .done _ _ => 0

/-- Step actually sent: `step = args.step or str(max(1, range_seconds // 300))`
(Python `or` picks the computed default when `--step` is absent or empty). -/
def effectiveStep (stepArg : Option String) (rangeSeconds : Nat) : String :=
  match stepArg with
  | none => toString (max 1 (rangeSeconds / 300))
  | some s => if s = "" then toString (max 1 (rangeSeconds / 300)) else s

/-- The query-range parameters: `end = time.time()`, `start = end - range_seconds`. -/
structure QueryParams where
  startT : Int
  endT : Int
  step : String
deriving DecidableEq

/-- Lines 112–115 of `main`: parse the range and build start/end/step. -/
def computeParams (rangeStr : String) (stepArg : Option String) (now : Int) :
    Except String QueryParams :=
  (parse_range rangeStr).map
    (fun (s : Nat) => ⟨now - (s : Int), now, effectiveStep stepArg s⟩)

/-- Line 198: `date_fmt = "%H:%M" if range_seconds <= 86400 else "%m-%d"`. -/
def dateFormat (rangeSeconds : Nat) : String :=
  if rangeSeconds ≤ 86400 then "%H:%M" else "%m-%d"

/-- The marker events before sorting: one `(ts, version)` pair per series
with a nonempty `values` list, taking the first point's timestamp and the
`version` label (default `""`). -/
def markerEventsRaw (rs : List SeriesData) : List (Int × String) :=
  rs.filterMap (fun s =>
    s.values.head?.map (fun v => (v.1, ((s.metric.lookup "version").getD ""))))

/-- Timestamp order used by `events.sort(key=lambda e: e[0])`. -/
def tsLe (a b : Int × String) : Prop := a.1 ≤ b.1

instance : DecidableRel tsLe := fun a b => by
  unfold tsLe; infer_instance

instance : IsTotal (Int × String) tsLe where
  total a b := le_total a.1 b.1

instance : IsTrans (Int × String) tsLe where
  trans _ _ _ hab hbc := le_trans hab hbc

/-- Lines 183–190: collect the marker events and sort them ascending by
timestamp. -/
def markerEvents (rs : List SeriesData) : List (Int × String) :=
  (markerEventsRaw rs).insertionSort tsLe

/-- Lines 167–196: the marker ("vlines") overlay. Produces the marker list
and the warnings printed, mirroring the `try`/`except` that catches
`RequestException`, `KeyError` and `ValueError`. -/
def markerStage (vlinesQuery : Option String) (vresp : FetchResult) :
    List (Int × String) × List String :=
  match vlinesQuery with
  | none => ([], [])
  | some _ =>
    match vresp with
    | .transportError e => ([], [s!"Warning: could not fetch vlines query: {e}"])
    | .badJson e => ([], [s!"Warning: could not fetch vlines query: {e}"])
    | .ok vbody =>
      if vbody.status = some "success" then
        match vbody.dataResult with
        | none => ([], ["Warning: could not fetch vlines query: KeyError"])
        | some vres => (markerEvents vres, [])
      else ([], [])

/-- `main` after argument parsing and time computation, as a function of the
resolved configuration, the parsed range, and the two fetch outcomes.
Mirrors lines 117–206 of the source. -/
def runMain (query : String) (vlinesQuery : Option String) (rangeSeconds : Nat)
    (presp : FetchResult) (vresp : FetchResult) : RunOutcome :=
  match presp with
  | .transportError e => .fatal s!"Error querying Prometheus: {e}"
  | .badJson e => .crash e
  | .ok body =>
    if body.status ≠ some "success" then
      let e := body.error.getD "unknown"
      .fatal s!"Prometheus error: {e}"
    else
      match body.dataResult with
      | none => .crash "KeyError"
      | some results =>
        if results.isEmpty then
          .fatal s!"No data returned for query: {query}"
        else
          let labels := results.map (fun s => metric_label s.metric)
          let mw := markerStage vlinesQuery vresp
          .done ⟨labels, mw.1, dateFormat rangeSeconds, decide (1 < results.length)⟩ mw.2

/-- A marker-query failure as caught by the `except` clause on line 195:
a transport error / timeout (`RequestException`), a malformed JSON body
(`ValueError`), or a decoded success body missing `data`/`data["result"]`
(`KeyError`; the access only happens when `status == "success"`). -/
def markerFetchFailed : FetchResult → Prop
  | .transportError _ => True
  | .badJson _ => True
  | .ok b => b.status = some "success" ∧ b.dataResult = none

instance : DecidablePred markerFetchFailed := fun r => by
  unfold markerFetchFailed
  cases r <;> infer_instance

/-- A character carries a multiplier exactly when it is in the regex
class `[smhdw]`. -/
theorem unitMultiplier_mem {u : Char} {m : Nat} (h : unitMultiplier u = some m) :
    u ∈ ['s', 'm', 'h', 'd', 'w'] := by
  unfold unitMultiplier at h
  split_ifs at h <;> simp_all

/-- C1: for digits followed by one unit letter, `parse_range` multiplies the
numeric value by the unit multiplier; in particular `parse_range "24h" = 86400`,
`parse_range "7d" = 604800`, `parse_range "30m" = 1800`. -/
theorem C1_parse_range_units (ds : List Char) (u : Char) (mult : Nat)
    (hds : ds ≠ []) (hdig : ds.all Char.isDigit)
    (hu : unitMultiplier u = some mult) :
    parse_range (String.mk (ds ++ [u])) = .ok (digitsVal ds * mult) ∧
    parse_range "24h" = .ok 86400 ∧
    parse_range "7d" = .ok 604800 ∧
    parse_range "30m" = .ok 1800 := by
  refine ⟨?_, rfl, rfl, rfl⟩
  have hlast : (String.mk (ds ++ [u])).data.getLast? = some u := by
    simp [String.mk]
  have hdrop : (String.mk (ds ++ [u])).data.dropLast = ds := by
    simp [String.mk]
  unfold parse_range
  rw [hlast]
  simp only [hdrop, hu]
  have : (!ds.isEmpty && ds.all Char.isDigit) = true := by
    simp [List.isEmpty_iff, hds, hdig]
  rw [this]
  rfl

/-- Witness for C1 at `ds = ['2','4']`, `u = 'h'`. -/
theorem C1_parse_range_units_witness :
    parse_range (String.mk (['2', '4'] ++ ['h'])) = .ok (digitsVal ['2', '4'] * 3600) ∧
    parse_range "24h" = .ok 86400 ∧
    parse_range "7d" = .ok 604800 ∧
    parse_range "30m" = .ok 1800 :=
  C1_parse_range_units ['2', '4'] 'h' 3600 (by decide) (by decide) (by decide)

/-- C6: any string that is not digits followed by one of `smhdw` is rejected:
`parse_range` produces the diagnostic (printed to stderr) and the process
exits with a non-zero status; in particular for "abc", "24", "1.5h", "-5h". -/
theorem C6_parse_range_reject (s : String)
    (h : ¬ ∃ ds u, s.data = ds ++ [u] ∧ ds ≠ [] ∧ (∀ c ∈ ds, c.isDigit) ∧
        u ∈ ['s', 'm', 'h', 'd', 'w']) :
    parse_range s = .error (invalidRangeMsg s) ∧
    parse_range "abc" = .error (invalidRangeMsg "abc") ∧
    parse_range "24" = .error (invalidRangeMsg "24") ∧
    parse_range "1.5h" = .error (invalidRangeMsg "1.5h") ∧
    parse_range "-5h" = .error (invalidRangeMsg "-5h") := by
  refine ⟨?_, rfl, rfl, rfl, rfl⟩
  unfold parse_range
  cases hl : s.data.getLast? with
  | none => rfl
  | some u =>
    have hne : s.data ≠ [] := by
      intro h0
      rw [h0] at hl
      simp at hl
    have hu : s.data.getLast hne = u := by
      rw [List.getLast?_eq_getLast _ hne] at hl
      exact Option.some_injective _ hl
    have hdec : s.data = s.data.dropLast ++ [u] := by
      conv_lhs => rw [← List.dropLast_append_getLast hne]
      rw [hu]
    cases hm : unitMultiplier u with
    | none => simp only [hm]
    | some mult =>
      have hcond : (!s.data.dropLast.isEmpty && s.data.dropLast.all Char.isDigit) = false := by
        by_contra hc
        rw [Bool.not_eq_false, Bool.and_eq_true, Bool.not_eq_true', List.isEmpty_eq_false] at hc
        exact h ⟨s.data.dropLast, u, hdec, hc.1,
          fun c hcm => List.all_eq_true.mp hc.2 c hcm, unitMultiplier_mem hm⟩
      simp only [hm, hcond]
      rfl

/-- Witness for C6 at `s = "abc"`. -/
theorem C6_parse_range_reject_witness :
    parse_range "abc" = .error (invalidRangeMsg "abc") :=
  (C6_parse_range_reject "abc" (by
    rintro ⟨ds, u, hdec, _, _, hmem⟩
    have hdata : ("abc".data : List Char) = ['a', 'b', 'c'] := rfl
    rw [hdata] at hdec
    have hu : some 'c' = some u := by
      calc some 'c' = (['a', 'b', 'c'] : List Char).getLast? := by decide
        _ = (ds ++ [u]).getLast? := by rw [hdec]
        _ = some u := List.getLast?_concat _
    cases hu
    exact absurd hmem (by decide))).1

/-- One unfolding step of association-list lookup. -/
theorem lookup_cons_eq {α β : Type} [BEq α] (k xk : α) (xv : β) (t : List (α × β)) :
    ((xk, xv) :: t).lookup k = cond (k == xk) (some xv) (t.lookup k) := by
  cases hk : k == xk <;> simp [List.lookup, hk]

/-- On association lists whose keys are duplicate-free (as the items of a
Python dict are), `lookup` is invariant under permutation of the items. -/
theorem lookup_eq_of_perm {α β : Type} [BEq α] [LawfulBEq α]
    {l₁ l₂ : List (α × β)} (hp : l₁.Perm l₂) (k : α) :
    (l₁.map Prod.fst).Nodup → l₁.lookup k = l₂.lookup k := by
  induction hp with
  | nil => intro _; rfl
  | cons x t ih =>
    intro hnd
    obtain ⟨xk, xv⟩ := x
    simp only [List.map_cons, List.nodup_cons] at hnd
    rw [lookup_cons_eq, lookup_cons_eq]
    cases hk : k == xk
    · simp only [Bool.cond_false]
      exact ih hnd.2
    · rfl
  | swap x y t =>
    intro hnd
    obtain ⟨xk, xv⟩ := x
    obtain ⟨yk, yv⟩ := y
    simp only [List.map_cons, List.nodup_cons, List.mem_cons] at hnd
    have hne : yk ≠ xk := fun he => hnd.1 (Or.inl he)
    rw [lookup_cons_eq, lookup_cons_eq, lookup_cons_eq, lookup_cons_eq]
    cases hky : k == yk <;> cases hkx : k == xk <;> simp
    exact absurd (Eq.trans (eq_of_beq hky).symm (eq_of_beq hkx)) hne
  | trans h₁ h₂ ih₁ ih₂ =>
    intro hnd
    exact (ih₁ hnd).trans (ih₂ (((h₁.map Prod.fst).nodup_iff).mp hnd))

/-- The strict comparison is the negation of the reversed non-strict one. -/
theorem charListLt_eq_not_le : ∀ as bs : List Char, charListLt as bs = !charListLe bs as
  | [], [] => rfl
  | [], _ :: _ => rfl
  | _ :: _, [] => rfl
  | a :: as, b :: bs => by
    simp only [charListLt, charListLe]
    rcases Nat.lt_trichotomy a.toNat b.toNat with h | h | h
    · rw [if_pos h, if_neg (by omega), if_pos h]
      rfl
    · rw [if_neg (by omega), if_neg (by omega), if_neg (by omega), if_neg (by omega)]
      exact charListLt_eq_not_le as bs
    · rw [if_neg (by omega), if_pos h, if_pos h]
      rfl

/-- The code-point order on character lists is total. -/
theorem charListLe_total : ∀ as bs : List Char,
    charListLe as bs = true ∨ charListLe bs as = true
  | [], _ => Or.inl rfl
  | _ :: _, [] => Or.inr rfl
  | a :: as, b :: bs => by
    simp only [charListLe]
    rcases Nat.lt_trichotomy a.toNat b.toNat with h | h | h
    · left
      rw [if_pos h]
    · rw [if_neg (by omega), if_neg (by omega), if_neg (by omega), if_neg (by omega)]
      exact charListLe_total as bs
    · right
      rw [if_pos h]

/-- The code-point order on character lists is transitive. -/
theorem charListLe_trans : ∀ as bs cs : List Char,
    charListLe as bs = true → charListLe bs cs = true → charListLe as cs = true
  | [], _, _ => fun _ _ => rfl
  | _ :: _, [], _ => fun h _ => Bool.noConfusion h
  | _ :: _, _ :: _, [] => fun _ h => Bool.noConfusion h
  | a :: as, b :: bs, c :: cs => fun h1 h2 => by
    simp only [charListLe] at h1 h2 ⊢
    by_cases hab : a.toNat < b.toNat
    · by_cases hbc : b.toNat < c.toNat
      · rw [if_pos (by omega)]
      · by_cases hcb : c.toNat < b.toNat
        · rw [if_neg hbc, if_pos hcb] at h2
          exact Bool.noConfusion h2
        · rw [if_pos (by omega)]
    · by_cases hba : b.toNat < a.toNat
      · rw [if_neg hab, if_pos hba] at h1
        exact Bool.noConfusion h1
      · rw [if_neg hab, if_neg hba] at h1
        by_cases hbc : b.toNat < c.toNat
        · rw [if_pos (by omega)]
        · by_cases hcb : c.toNat < b.toNat
          · rw [if_neg hbc, if_pos hcb] at h2
            exact Bool.noConfusion h2
          · rw [if_neg hbc, if_neg hcb] at h2
            rw [if_neg (by omega), if_neg (by omega)]
            exact charListLe_trans as bs cs h1 h2

/-- The code-point order on character lists is antisymmetric. -/
theorem charListLe_antisymm : ∀ as bs : List Char,
    charListLe as bs = true → charListLe bs as = true → as = bs
  | [], [], _, _ => rfl
  | [], _ :: _, _, h2 => Bool.noConfusion h2
  | _ :: _, [], h1, _ => Bool.noConfusion h1
  | a :: as, b :: bs, h1, h2 => by
    simp only [charListLe] at h1 h2
    by_cases hab : a.toNat < b.toNat
    · rw [if_neg (by omega), if_pos hab] at h2
      exact Bool.noConfusion h2
    · by_cases hba : b.toNat < a.toNat
      · rw [if_neg hab, if_pos hba] at h1
        exact Bool.noConfusion h1
      · rw [if_neg hab, if_neg hba] at h1
        rw [if_neg hba, if_neg hab] at h2
        have hc : a = b := by
          have hn : a.toNat = b.toNat := by omega
          simp only [Char.toNat] at hn
          exact Char.eq_of_val_eq (UInt32.toNat.inj hn)
        rw [hc, charListLe_antisymm as bs h1 h2]

/-- The code-point order on character lists is reflexive. -/
theorem charListLe_refl : ∀ as : List Char, charListLe as as = true
  | [] => rfl
  | a :: as => by
    simp only [charListLe]
    rw [if_neg (by omega), if_neg (by omega)]
    exact charListLe_refl as

/-- The strict code-point order on character lists is transitive. -/
theorem charListLt_trans {as bs cs : List Char} (h1 : charListLt as bs = true)
    (h2 : charListLt bs cs = true) : charListLt as cs = true := by
  rw [charListLt_eq_not_le, Bool.not_eq_true'] at h1 h2 ⊢
  by_contra hc
  rw [Bool.not_eq_false] at hc
  rcases charListLe_total as bs with h | h
  · exact Bool.noConfusion (h2.symm.trans (charListLe_trans cs as bs hc h))
  · exact Bool.noConfusion (h1.symm.trans h)

/-- Strings with equal character data are equal. -/
theorem string_eq_of_data_eq {s t : String} (h : s.data = t.data) : s = t := by
  cases s
  cases t
  simp only at h
  rw [h]

/-- `pairLe` is total. -/
theorem pairLe_total (a b : String × String) : pairLe a b ∨ pairLe b a := by
  unfold pairLe strLt strLe
  by_cases h1 : charListLt a.1.data b.1.data = true
  · exact Or.inl (Or.inl h1)
  · by_cases h2 : charListLt b.1.data a.1.data = true
    · exact Or.inr (Or.inl h2)
    · rw [charListLt_eq_not_le, Bool.not_eq_true, Bool.not_eq_false'] at h1 h2
      have hk : a.1 = b.1 := string_eq_of_data_eq (charListLe_antisymm _ _ h2 h1)
      rcases charListLe_total a.2.data b.2.data with h | h
      · exact Or.inl (Or.inr ⟨hk, h⟩)
      · exact Or.inr (Or.inr ⟨hk.symm, h⟩)

/-- `pairLe` is transitive. -/
theorem pairLe_trans (a b c : String × String) (hab : pairLe a b) (hbc : pairLe b c) :
    pairLe a c := by
  unfold pairLe strLt strLe at *
  rcases hab with hab | ⟨hab, hab2⟩
  · rcases hbc with hbc | ⟨hbc, _⟩
    · exact Or.inl (charListLt_trans hab hbc)
    · exact Or.inl (hbc ▸ hab)
  · rcases hbc with hbc | ⟨hbc, hbc2⟩
    · exact Or.inl (hab ▸ hbc)
    · exact Or.inr ⟨hab.trans hbc, charListLe_trans _ _ _ hab2 hbc2⟩

/-- `pairLe` is antisymmetric. -/
theorem pairLe_antisymm (a b : String × String) (hab : pairLe a b) (hba : pairLe b a) :
    a = b := by
  unfold pairLe strLt strLe at *
  rcases hab with hab | ⟨hab, hab2⟩
  · rcases hba with hba | ⟨hba, _⟩
    · rw [charListLt_eq_not_le, Bool.not_eq_true'] at hab hba
      rcases charListLe_total a.1.data b.1.data with h | h
      · exact Bool.noConfusion (hba.symm.trans h)
      · exact Bool.noConfusion (hab.symm.trans h)
    · rw [hba, charListLt_eq_not_le, charListLe_refl, Bool.not_true] at hab
      exact Bool.noConfusion hab
  · rcases hba with hba | ⟨_, hba2⟩
    · rw [hab, charListLt_eq_not_le, charListLe_refl, Bool.not_true] at hba
      exact Bool.noConfusion hba
    · exact Prod.ext hab (string_eq_of_data_eq (charListLe_antisymm _ _ hab2 hba2))

/-- `sorted(metric.items())` depends only on which items are present, not on
their arrival order: `pairLe` is a total, transitive, antisymmetric order,
so any two sorted permutations coincide. -/
theorem sortedItems_eq_of_perm {l₁ l₂ : List (String × String)} (hp : l₁.Perm l₂) :
    sortedItems l₁ = sortedItems l₂ := by
  haveI : IsTotal (String × String) pairLe := ⟨pairLe_total⟩
  haveI : IsTrans (String × String) pairLe := ⟨pairLe_trans⟩
  haveI : IsAntisymm (String × String) pairLe := ⟨pairLe_antisymm⟩
  exact List.eq_of_perm_of_sorted
    (((List.perm_insertionSort pairLe l₁).trans hp).trans
      (List.perm_insertionSort pairLe l₂).symm)
    (List.sorted_insertionSort pairLe l₁) (List.sorted_insertionSort pairLe l₂)

/-- C2: `metric_label` excludes `__name__`, `job`, `instance`, sorts the
remaining keys, renders `key=value` joined by `", "`, falls back to the
`__name__` value (else `"value"`), and is invariant under reordering of the
label set's items; the three spec examples evaluate as stated. -/
theorem C2_metric_label (m₁ m₂ : List (String × String)) (hp : m₁.Perm m₂)
    (hnd : (m₁.map Prod.fst).Nodup) :
    metric_label m₁ = metric_label m₂ ∧
    metric_label [("__name__", "cpu"), ("job", "node"), ("instance", "a"),
      ("mode", "idle")] = "mode=idle" ∧
    metric_label [("__name__", "cpu"), ("job", "node"), ("instance", "a")] = "cpu" ∧
    metric_label [("__name__", "x"), ("job", "j"), ("a", "2"), ("b", "1")] =
      "a=2, b=1" := by
  refine ⟨?_, by decide, by decide, by decide⟩
  unfold metric_label
  rw [sortedItems_eq_of_perm hp, lookup_eq_of_perm hp "__name__" hnd]

/-- Witness for C2 at a two-item label set and its swap. -/
theorem C2_metric_label_witness :
    metric_label [("b", "2"), ("a", "1")] = metric_label [("a", "1"), ("b", "2")] ∧
    metric_label [("__name__", "cpu"), ("job", "node"), ("instance", "a"),
      ("mode", "idle")] = "mode=idle" ∧
    metric_label [("__name__", "cpu"), ("job", "node"), ("instance", "a")] = "cpu" ∧
    metric_label [("__name__", "x"), ("job", "j"), ("a", "2"), ("b", "1")] =
      "a=2, b=1" :=
  C2_metric_label [("b", "2"), ("a", "1")] [("a", "1"), ("b", "2")]
    (List.Perm.swap ("a", "1") ("b", "2") []) (by decide)

/-- On the primary-query success path (status `"success"`, nonempty result),
`runMain` completes with the primary labels, whatever the marker stage yields,
and the range-dependent tick format. -/
theorem runMain_success_eq (q : String) (vl : Option String) (S : Nat)
    (body : PromBody) (rs : List SeriesData) (vresp : FetchResult)
    (hst : body.status = some "success") (hres : body.dataResult = some rs)
    (hne : rs ≠ []) :
    runMain q vl S (.ok body) vresp =
      .done ⟨rs.map (fun s => metric_label s.metric), (markerStage vl vresp).1,
        dateFormat S, decide (1 < rs.length)⟩ (markerStage vl vresp).2 := by
  unfold runMain
  simp [hst, hres, List.isEmpty_iff, hne]

/-- C4: a successful primary response with an empty result list is fatal,
with a "no data" message naming the query, and a non-zero exit status. -/
theorem C4_no_data_fatal (q : String) (vl : Option String) (S : Nat)
    (body : PromBody) (vresp : FetchResult)
    (hst : body.status = some "success") (hres : body.dataResult = some []) :
    runMain q vl S (.ok body) vresp = .fatal ("No data returned for query: " ++ q) ∧
    exitCode (runMain q vl S (.ok body) vresp) ≠ 0 := by
  have h : runMain q vl S (.ok body) vresp =
      .fatal ("No data returned for query: " ++ q) := by
    simp [runMain, hst, hres, toString]
  refine ⟨h, ?_⟩
  rw [h]
  simp [exitCode]

/-- Witness for C4 at a concrete empty-result success body. -/
theorem C4_no_data_fatal_witness :
    runMain "up" none 86400 (.ok ⟨some "success", none, some []⟩)
        (.ok ⟨none, none, none⟩) =
      .fatal ("No data returned for query: " ++ "up") ∧
    exitCode (runMain "up" none 86400 (.ok ⟨some "success", none, some []⟩)
        (.ok ⟨none, none, none⟩)) ≠ 0 :=
  C4_no_data_fatal "up" none 86400 ⟨some "success", none, some []⟩
    (.ok ⟨none, none, none⟩) rfl rfl

/-- C5: a decoded primary response whose `status` is not `"success"` is fatal,
with a message built from the body's `error` field (or `"unknown"`), and a
non-zero exit status. -/
theorem C5_status_error_fatal (q : String) (vl : Option String) (S : Nat)
    (body : PromBody) (vresp : FetchResult) (hst : body.status ≠ some "success") :
    runMain q vl S (.ok body) vresp =
      .fatal ("Prometheus error: " ++ body.error.getD "unknown") ∧
    exitCode (runMain q vl S (.ok body) vresp) ≠ 0 := by
  have h : runMain q vl S (.ok body) vresp =
      .fatal ("Prometheus error: " ++ body.error.getD "unknown") := by
    simp [runMain, hst, toString]
  refine ⟨h, ?_⟩
  rw [h]
  simp [exitCode]

/-- Witness for C5 at `status: "error", error: "bad query"`. -/
theorem C5_status_error_fatal_witness :
    runMain "up" none 86400 (.ok ⟨some "error", some "bad query", none⟩)
        (.ok ⟨none, none, none⟩) =
      .fatal ("Prometheus error: " ++ (some "bad query").getD "unknown") ∧
    exitCode (runMain "up" none 86400 (.ok ⟨some "error", some "bad query", none⟩)
        (.ok ⟨none, none, none⟩)) ≠ 0 :=
  C5_status_error_fatal "up" none 86400 ⟨some "error", some "bad query", none⟩
    (.ok ⟨none, none, none⟩) (by decide)

/-- C3: when the primary query succeeded, a marker-query failure (transport
error or timeout, malformed JSON, or a success body missing `data.result`)
does not abort the run: the chart is produced from the primary series alone
(no markers), one warning is emitted, and the exit status is zero. -/
theorem C3_marker_failure_degrades (q vq : String) (S : Nat) (body : PromBody)
    (rs : List SeriesData) (vresp : FetchResult)
    (hst : body.status = some "success") (hres : body.dataResult = some rs)
    (hne : rs ≠ []) (hfail : markerFetchFailed vresp) :
    ∃ w : String, runMain q (some vq) S (.ok body) vresp =
        .done ⟨rs.map (fun s => metric_label s.metric), [], dateFormat S,
          decide (1 < rs.length)⟩ [w] ∧
      exitCode (runMain q (some vq) S (.ok body) vresp) = 0 := by
  have h := runMain_success_eq q (some vq) S body rs vresp hst hres hne
  cases vresp with
  | transportError e =>
    exact ⟨s!"Warning: could not fetch vlines query: {e}", h, by rw [h]; rfl⟩
  | badJson e =>
    exact ⟨s!"Warning: could not fetch vlines query: {e}", h, by rw [h]; rfl⟩
  | ok vbody =>
    obtain ⟨hv1, hv2⟩ := hfail
    have hm : markerStage (some vq) (.ok vbody) =
        ([], ["Warning: could not fetch vlines query: KeyError"]) := by
      simp [markerStage, hv1, hv2]
    rw [hm] at h
    exact ⟨"Warning: could not fetch vlines query: KeyError", h, by rw [h]; rfl⟩

/-- Witness for C3 at a one-series primary response and a timed-out marker
query. -/
theorem C3_marker_failure_degrades_witness :
    ∃ w : String, runMain "up" (some "deploys") 86400
        (.ok ⟨some "success", none, some [⟨[("__name__", "up")], [(0, 1)]⟩]⟩)
        (.transportError "timeout") =
        .done ⟨([⟨[("__name__", "up")], [(0, 1)]⟩] : List SeriesData).map
            (fun s => metric_label s.metric),
          [], dateFormat 86400,
          decide (1 < [(⟨[("__name__", "up")], [(0, 1)]⟩ : SeriesData)].length)⟩ [w] ∧
      exitCode (runMain "up" (some "deploys") 86400
        (.ok ⟨some "success", none, some [⟨[("__name__", "up")], [(0, 1)]⟩]⟩)
        (.transportError "timeout")) = 0 :=
  C3_marker_failure_degrades "up" "deploys" 86400
    ⟨some "success", none, some [⟨[("__name__", "up")], [(0, 1)]⟩]⟩
    [⟨[("__name__", "up")], [(0, 1)]⟩] (.transportError "timeout")
    rfl rfl (by decide) trivial

/-- C10: a decoded marker response with HTTP 2xx and valid JSON whose `status`
is not `"success"` is silently ignored: the run completes with no markers,
no warning, and exit status zero. -/
theorem C10_nonsuccess_marker_silent (q vq : String) (S : Nat)
    (body vbody : PromBody) (rs : List SeriesData)
    (hst : body.status = some "success") (hres : body.dataResult = some rs)
    (hne : rs ≠ []) (hv : vbody.status ≠ some "success") :
    runMain q (some vq) S (.ok body) (.ok vbody) =
      .done ⟨rs.map (fun s => metric_label s.metric), [], dateFormat S,
        decide (1 < rs.length)⟩ [] ∧
    exitCode (runMain q (some vq) S (.ok body) (.ok vbody)) = 0 := by
  have h := runMain_success_eq q (some vq) S body rs (.ok vbody) hst hres hne
  have hm : markerStage (some vq) (.ok vbody) = ([], []) := by
    simp [markerStage, hv]
  rw [hm] at h
  exact ⟨h, by rw [h]; rfl⟩

/-- Witness for C10 at a marker body with `status: "error"`. -/
theorem C10_nonsuccess_marker_silent_witness :
    runMain "up" (some "deploys") 86400
        (.ok ⟨some "success", none, some [⟨[("__name__", "up")], [(0, 1)]⟩]⟩)
        (.ok ⟨some "error", some "boom", none⟩) =
      .done ⟨([⟨[("__name__", "up")], [(0, 1)]⟩] : List SeriesData).map
          (fun s => metric_label s.metric),
        [], dateFormat 86400,
        decide (1 < [(⟨[("__name__", "up")], [(0, 1)]⟩ : SeriesData)].length)⟩ [] ∧
    exitCode (runMain "up" (some "deploys") 86400
        (.ok ⟨some "success", none, some [⟨[("__name__", "up")], [(0, 1)]⟩]⟩)
        (.ok ⟨some "error", some "boom", none⟩)) = 0 :=
  C10_nonsuccess_marker_silent "up" "deploys" 86400
    ⟨some "success", none, some [⟨[("__name__", "up")], [(0, 1)]⟩]⟩
    ⟨some "error", some "boom", none⟩ [⟨[("__name__", "up")], [(0, 1)]⟩]
    rfl rfl (by decide) (by decide)

/-- C7: with no `--step` supplied and a range of `S` seconds, the query window
is `end = now`, `start = now - S`, and the step is `max(1, S // 300)`
(sent as its decimal string). -/
theorem C7_auto_time_params (rangeStr : String) (S : Nat) (now : Int)
    (h : parse_range rangeStr = .ok S) :
    computeParams rangeStr none now = .ok ⟨now - (S : Int), now,
      toString (max 1 (S / 300))⟩ := by
  unfold computeParams effectiveStep
  rw [h]
  rfl

/-- Witness for C7 at range `"24h"`, `now = 1000`. -/
theorem C7_auto_time_params_witness :
    computeParams "24h" none 1000 = .ok ⟨1000 - ((86400 : Nat) : Int), 1000,
      toString (max 1 (86400 / 300))⟩ :=
  C7_auto_time_params "24h" 86400 1000 rfl

/-- C8: for a run whose range parses to `S` seconds, the tick format is
`%H:%M` when `S ≤ 86400` and `%m-%d` when `S > 86400`. -/
theorem C8_tick_format (rangeStr : String) (S : Nat)
    (_h : parse_range rangeStr = .ok S) :
    (S ≤ 86400 → dateFormat S = "%H:%M") ∧
    (86400 < S → dateFormat S = "%m-%d") := by
  constructor
  · intro hle
    simp [dateFormat, hle]
  · intro hgt
    simp [dateFormat, Nat.not_le.mpr hgt]

/-- Witness for C8 at ranges `"24h"` and `"7d"`. -/
theorem C8_tick_format_witness :
    dateFormat 86400 = "%H:%M" ∧ dateFormat 604800 = "%m-%d" :=
  ⟨(C8_tick_format "24h" 86400 rfl).1 (by decide),
   (C8_tick_format "7d" 604800 rfl).2 (by decide)⟩

/-- C9's claim fails on the code at a marker series with an empty `values`
list: the loop skips it (`continue`), so no event is produced for it. -/
theorem C9_counterexample :
    ¬ (markerEvents [⟨[], []⟩]).length = ([⟨[], []⟩] : List SeriesData).length := by
  decide

/-- Helper: the unsorted marker events are exactly one per series with a
nonempty `values` list. -/
theorem markerEventsRaw_length : ∀ rs : List SeriesData,
    (markerEventsRaw rs).length = (rs.filter (fun s => !s.values.isEmpty)).length
  | [] => rfl
  | s :: t => by
    have ih := markerEventsRaw_length t
    unfold markerEventsRaw at ih ⊢
    cases hv : s.values with
    | nil => simp [List.filterMap_cons, List.filter_cons, hv, ih]
    | cons a l => simp [List.filterMap_cons, List.filter_cons, hv, ih]

/-- C9 (amended): one marker event per result series whose `values` list is
nonempty, its timestamp taken from the series' first point, and the events
sorted ascending by timestamp before drawing. -/
theorem C9_markers_sorted (rs : List SeriesData) :
    (markerEvents rs).Perm (markerEventsRaw rs) ∧
    List.Sorted (· ≤ ·) ((markerEvents rs).map Prod.fst) ∧
    (markerEvents rs).length = (rs.filter (fun s => !s.values.isEmpty)).length := by
  refine ⟨List.perm_insertionSort tsLe _, ?_, ?_⟩
  · exact List.Pairwise.map Prod.fst (fun a b hab => hab)
      (List.sorted_insertionSort tsLe (markerEventsRaw rs))
  · unfold markerEvents
    rw [(List.perm_insertionSort tsLe (markerEventsRaw rs)).length_eq]
    exact markerEventsRaw_length rs

end PrometheusRender
